import Mathlib

/-!
Verification of the gateway core of `src/examples/python/monday_server.py`
(`MondayMCPServer`): the rate limiter, the TTL response caches, the upstream
client wrapper `query_monday_api`, the resource/tool/prompt dispatch tables,
and the request router `process_request`.

The embedding is a shallow one: Python dictionaries and JSON values become the
`Json` inductive; raised exceptions become `Except PyError`; the mutable
`self.rate_limits` / `self.cache` state is passed explicitly; wall-clock reads
(`time.time()`) become an explicit `now : Int` parameter; the network is an
oracle list of `UpOutcome` values consumed one per POST. The literal GraphQL
query text is out of scope (it does not influence any control flow in the
server), so the oracle is indexed by call order, not by query text.
-/

/-- Python values that flow through the server: the JSON-like data model. -/
inductive Json where
| null : Json
| bool (b : Bool) : Json
| num (n : Int) : Json
| str (s : String) : Json
| arr (items : List Json) : Json
| obj (fields : List (String × Json)) : Json
deriving Repr

/-- Python exceptions raised by the server code. `valueError` is the kind the
server raises deliberately (its error descriptors); `keyError`, `indexError`,
`typeError` and `attributeError` are faults produced by subscripting and
attribute access on values that lack the key, index or attribute. -/
inductive PyError where
| valueError (msg : String) : PyError
| keyError (key : String) : PyError
| indexError (msg : String) : PyError
| typeError (msg : String) : PyError
| attributeError (attr : String) : PyError
deriving DecidableEq, Repr

mutual

/-- Structural equality of `Json` values, mirroring Python `==` on the data
model (used by dictionary key lookup and by value comparisons). -/
def Json.beq : Json → Json → Bool
| .null, .null => true
| .bool a, .bool b => a == b
| .num a, .num b => a == b
| .str a, .str b => a == b
| .arr a, .arr b => Json.beqList a b
| .obj a, .obj b => Json.beqFields a b
| _, _ => false

def Json.beqList : List Json → List Json → Bool
| [], [] => true
| x :: xs, y :: ys => Json.beq x y && Json.beqList xs ys
| _, _ => false

def Json.beqFields : List (String × Json) → List (String × Json) → Bool
| [], [] => true
| (k, v) :: xs, (l, w) :: ys => k == l && Json.beq v w && Json.beqFields xs ys
| _, _ => false

end

mutual

theorem Json.beq_refl : (a : Json) → Json.beq a a = true
| .null => rfl
| .bool b => by simp [Json.beq]
| .num n => by simp [Json.beq]
| .str s => by simp [Json.beq]
| .arr items => by simp [Json.beq]; exact Json.beqList_refl items
| .obj fields => by simp [Json.beq]; exact Json.beqFields_refl fields

theorem Json.beqList_refl : (xs : List Json) → Json.beqList xs xs = true
| [] => rfl
| x :: xs => by simp [Json.beqList]; exact ⟨Json.beq_refl x, Json.beqList_refl xs⟩

theorem Json.beqFields_refl : (xs : List (String × Json)) → Json.beqFields xs xs = true
| [] => rfl
| (k, v) :: xs => by simp [Json.beqFields]; exact ⟨Json.beq_refl v, Json.beqFields_refl xs⟩

end

/-- Lookup in a string-keyed association list (a Python dict with string
keys; dict keys are unique, so first match is the binding). -/
def jlook : List (String × Json) → String → Option Json
| [], _ => none
| (k, v) :: fs, key => if k = key then some v else jlook fs key

/-- Python `d.get(k)`: `None`-free lookup on a mapping; on a non-mapping the
claims never exercise this, modelled as absent. -/
def Json.get? : Json → String → Option Json
| .obj fs, k => jlook fs k
| _, _ => none

/-- Python `k in d` membership test on a mapping. -/
def Json.hasKey (j : Json) (k : String) : Bool :=
  (j.get? k).isSome

/-- Python `d[k]` subscripting: raises `KeyError(k)` when the mapping lacks
the key, `TypeError` when the value is not a mapping. -/
def Json.subscript : Json → String → Except PyError Json
| .obj fs, k =>
  match jlook fs k with
  | some v => .ok v
  | none => .error (.keyError k)
| _, k => .error (.typeError ("not subscriptable: " ++ k))

/-- Python `xs[i]` list indexing: raises `IndexError` out of range,
`TypeError` on a non-list. -/
def Json.index : Json → Nat → Except PyError Json
| .arr xs, i =>
  match xs.get? i with
  | some v => .ok v
  | none => .error (.indexError "list index out of range")
| _, _ => .error (.typeError "not indexable")

/-- Python `str(v)` as used by f-string interpolation. Scalars are rendered
exactly as Python renders them; container rendering is simplified (no claim
interpolates a container into a message). -/
def Json.pyStr : Json → String
| .null => "None"
| .bool true => "True"
| .bool false => "False"
| .num n => toString n
| .str s => s
| .arr _ => "[...]"
| .obj _ => "\x7b...\x7d"

/-- Python `s.lower()`: raises `AttributeError` on a non-string. -/
def Json.pyLower : Json → Except PyError String
| .str s => .ok s.toLower
| _ => .error (.attributeError "lower")

/-- Rendering of `datetime.fromtimestamp(t).isoformat()`: modelled as an
injective textual rendering of the timestamp; the exact ISO text never
influences control flow. -/
def isoformat (t : Int) : String :=
  toString t

/-- The `self.rate_limits` dictionary of `MondayMCPServer.__init__`. -/
structure RateLimits where
  daily_remaining : Int
  reset_time : Int
  active_requests : Int
deriving DecidableEq, Repr

/-- Initial rate-limit state set in `__init__`: 1000 daily requests, reset one
day after startup, no requests in flight. -/
def initRate (t0 : Int) : RateLimits :=
  { daily_remaining := 1000, reset_time := t0 + 86400, active_requests := 0 }

/-- Translation of `MondayMCPServer._check_rate_limit`. The source raises
before any mutation on both failure branches, so the state component of the
result is the input state there; on success it decrements `daily_remaining`
and increments `active_requests` and returns `True`. -/
def checkRateLimit (r : RateLimits) : Except PyError Bool × RateLimits :=
  if r.daily_remaining ≤ 0 then
    (.error (.valueError ("Rate limit exceeded. Resets at " ++ isoformat r.reset_time)), r)
  else if r.active_requests ≥ 10 then
    (.error (.valueError "Too many concurrent requests. Please try again."), r)
  else
    (.ok true,
     { r with daily_remaining := r.daily_remaining - 1,
              active_requests := r.active_requests + 1 })

/-- Translation of `MondayMCPServer._release_rate_limit`. -/
def releaseRateLimit (r : RateLimits) : RateLimits :=
  { r with active_requests := r.active_requests - 1 }

/-- One network round trip as seen by `query_monday_api`: either the POST or
the body parse raises (transport failure), or a parsed JSON body is
returned. -/
inductive UpOutcome where
| fail (e : PyError) : UpOutcome
| body (result : Json) : UpOutcome
deriving Repr

/-- Pop the next upstream outcome from the oracle. An exhausted oracle
behaves as a transport failure (a modelling artifact never exercised by the
theorems, which always supply the outcomes they need). -/
def takeUp : List UpOutcome → UpOutcome × List UpOutcome
| [] => (.fail (.valueError "upstream oracle exhausted"), [])
| u :: us => (u, us)

/-- Result record of one `query_monday_api` call: the returned data or the
raised exception, the rate-limit state after the call, the remaining oracle,
the number of upstream POSTs performed, and the number of
`_release_rate_limit` invocations. -/
structure QOut where
  res : Except PyError Json
  rate : RateLimits
  ups : List UpOutcome
  sends : Nat
  releases : Nat
deriving Repr

/-- Translation of `MondayMCPServer.query_monday_api`. `_check_rate_limit`
runs before the `try` block, so a failed acquire propagates with no release
and no POST. Inside `try ... finally`, every exit path (transport failure,
body with an `errors` list, message extraction fault, missing `data` key,
success) performs exactly one release. -/
def queryMondayApi (r : RateLimits) (ups : List UpOutcome) : QOut :=
  match checkRateLimit r with
  | (.error e, r2) => ⟨.error e, r2, ups, 0, 0⟩
  | (.ok _, r2) =>
    let (u, ups2) := takeUp ups
    match u with
    | .fail e => ⟨.error e, releaseRateLimit r2, ups2, 1, 1⟩
    | .body result =>
      if result.hasKey "errors" then
        match (do
          let es ← result.subscript "errors"
          let e0 ← es.index 0
          e0.subscript "message" : Except PyError Json) with
        | .error e => ⟨.error e, releaseRateLimit r2, ups2, 1, 1⟩
        | .ok m =>
          ⟨.error (.valueError ("Monday.com API Error: " ++ m.pyStr)),
           releaseRateLimit r2, ups2, 1, 1⟩
      else
        match result.subscript "data" with
        | .error e => ⟨.error e, releaseRateLimit r2, ups2, 1, 1⟩
        | .ok d => ⟨.ok d, releaseRateLimit r2, ups2, 1, 1⟩

/-- One entry of a `self.cache` sub-dictionary: the dictionary
`\x7b"timestamp": time.time(), "data": ...\x7d` the handlers store. -/
structure CacheEntry where
  timestamp : Int
  data : Json
deriving Repr

/-- A `self.cache` sub-dictionary. Keys are arbitrary Python values (the
`users` cache is keyed by whatever `parameters["user_id"]` held), compared by
`Json.beq`, so the map is an association list over `Json` keys. -/
def CacheMap : Type := List (Json × CacheEntry)

/-- Dictionary lookup in a cache sub-dictionary. -/
def assocGet : CacheMap → Json → Option CacheEntry
| [], _ => none
| (k, e) :: m, key => if Json.beq k key then some e else assocGet m key

/-- Dictionary assignment in a cache sub-dictionary: overwrite the binding of
an existing key, otherwise append a new binding. -/
def assocSet : CacheMap → Json → CacheEntry → CacheMap
| [], key, e => [(key, e)]
| (k, e0) :: m, key, e =>
  if Json.beq k key then (k, e) :: m else (k, e0) :: assocSet m key e

/-- The cache read pattern shared by `list_boards`, `get_board_structure` and
`get_user_details`: the entry for `key` is served iff it is present and
`entry["timestamp"] > time.time() - 300`; a stale entry is ignored but left
in place. -/
def cacheGet (m : CacheMap) (key : Json) (now : Int) : Option Json :=
  match assocGet m key with
  | some e => if e.timestamp > now - 300 then some e.data else none
  | none => none

/-- The cache write pattern shared by the same three handlers: unconditionally
store `\x7b"timestamp": time.time(), "data": v\x7d` under `key`. -/
def cachePut (m : CacheMap) (key : Json) (v : Json) (now : Int) : CacheMap :=
  assocSet m key ⟨now, v⟩

/-- The mutable state of a `MondayMCPServer` instance: `self.rate_limits` and
the four sub-dictionaries of `self.cache` (`items` is declared in `__init__`
but never used by any handler). -/
structure ServerState where
  rate : RateLimits
  boards : CacheMap
  board_structure : CacheMap
  items : CacheMap
  users : CacheMap

/-- Initial server state built by `__init__` at startup time `t0`. -/
def initServer (t0 : Int) : ServerState :=
  { rate := initRate t0, boards := [], board_structure := [], items := [], users := [] }

/-- Result record of one handler or router invocation: returned value or
raised exception, the server state after the call, the remaining upstream
oracle, upstream POSTs performed, and `_release_rate_limit` invocations. -/
structure HOut where
  res : Except PyError Json
  st : ServerState
  ups : List UpOutcome
  sends : Nat
  releases : Nat

/-- Lift `query_monday_api` to the full server state (it reads and writes
only `self.rate_limits`). -/
def liftApi (st : ServerState) (ups : List UpOutcome) : HOut :=
  let q := queryMondayApi st.rate ups
  ⟨q.res, { st with rate := q.rate }, q.ups, q.sends, q.releases⟩

/-- Translation of `MondayMCPServer.list_boards`. A fresh `"all"` entry in
`self.cache["boards"]` is returned as `\x7b"content": data\x7d` with no state
change; otherwise the API is queried, `result["boards"]` cached under `"all"`
and returned. `json.dumps` serialization is modelled by carrying the value
itself in the `content` field. -/
def listBoards (st : ServerState) (now : Int) (ups : List UpOutcome)
    (_parameters : Json) : HOut :=
  match cacheGet st.boards (.str "all") now with
  | some d => ⟨.ok (.obj [("content", d)]), st, ups, 0, 0⟩
  | none =>
    let q := liftApi st ups
    match q.res with
    | .error e => ⟨.error e, q.st, q.ups, q.sends, q.releases⟩
    | .ok result =>
      match result.subscript "boards" with
      | .error e => ⟨.error e, q.st, q.ups, q.sends, q.releases⟩
      | .ok boards =>
        let st2 := { q.st with boards := cachePut q.st.boards (.str "all") boards now }
        ⟨.ok (.obj [("content", boards)]), st2, q.ups, q.sends, q.releases⟩

/-- Translation of `MondayMCPServer.get_board_structure`. The source guard
`if "board_id" not in parameters: raise` followed by
`board_id = parameters["board_id"]` is modelled as one lookup match. The
cache key is the f-string `"structure-" + str(board_id)`. -/
def getBoardStructure (st : ServerState) (now : Int) (ups : List UpOutcome)
    (parameters : Json) : HOut :=
  match parameters.get? "board_id" with
  | none => ⟨.error (.valueError "board_id parameter is required"), st, ups, 0, 0⟩
  | some board_id =>
    let cache_key : Json := .str ("structure-" ++ board_id.pyStr)
    match cacheGet st.board_structure cache_key now with
    | some d => ⟨.ok (.obj [("content", d)]), st, ups, 0, 0⟩
    | none =>
      let q := liftApi st ups
      match q.res with
      | .error e => ⟨.error e, q.st, q.ups, q.sends, q.releases⟩
      | .ok result =>
        match (do
          let bs ← result.subscript "boards"
          bs.index 0 : Except PyError Json) with
        | .error e => ⟨.error e, q.st, q.ups, q.sends, q.releases⟩
        | .ok board_structure =>
          let st2 := { q.st with
            board_structure := cachePut q.st.board_structure cache_key board_structure now }
          ⟨.ok (.obj [("content", board_structure)]), st2, q.ups, q.sends, q.releases⟩

/-- Translation of `MondayMCPServer.get_user_details`. The users cache is
keyed directly by the `user_id` value. -/
def getUserDetails (st : ServerState) (now : Int) (ups : List UpOutcome)
    (parameters : Json) : HOut :=
  match parameters.get? "user_id" with
  | none => ⟨.error (.valueError "user_id parameter is required"), st, ups, 0, 0⟩
  | some user_id =>
    match cacheGet st.users user_id now with
    | some d => ⟨.ok (.obj [("content", d)]), st, ups, 0, 0⟩
    | none =>
      let q := liftApi st ups
      match q.res with
      | .error e => ⟨.error e, q.st, q.ups, q.sends, q.releases⟩
      | .ok result =>
        match (do
          let us ← result.subscript "users"
          us.index 0 : Except PyError Json) with
        | .error e => ⟨.error e, q.st, q.ups, q.sends, q.releases⟩
        | .ok u =>
          let st2 := { q.st with users := cachePut q.st.users user_id u now }
          ⟨.ok (.obj [("content", u)]), st2, q.ups, q.sends, q.releases⟩

/-- Translation of `MondayMCPServer.list_items_by_board` (no cache). -/
def listItemsByBoard (st : ServerState) (_now : Int) (ups : List UpOutcome)
    (parameters : Json) : HOut :=
  match parameters.get? "board_id" with
  | none => ⟨.error (.valueError "board_id parameter is required"), st, ups, 0, 0⟩
  | some _ =>
    let q := liftApi st ups
    match q.res with
    | .error e => ⟨.error e, q.st, q.ups, q.sends, q.releases⟩
    | .ok result =>
      match (do
        let bs ← result.subscript "boards"
        bs.index 0 : Except PyError Json) with
      | .error e => ⟨.error e, q.st, q.ups, q.sends, q.releases⟩
      | .ok b => ⟨.ok (.obj [("content", b)]), q.st, q.ups, q.sends, q.releases⟩

/-- Translation of `MondayMCPServer.list_overdue_items` (no parameters, no
cache). -/
def listOverdueItems (st : ServerState) (_now : Int) (ups : List UpOutcome)
    (_parameters : Json) : HOut :=
  let q := liftApi st ups
  match q.res with
  | .error e => ⟨.error e, q.st, q.ups, q.sends, q.releases⟩
  | .ok result =>
    match result.subscript "items_by_column_values" with
    | .error e => ⟨.error e, q.st, q.ups, q.sends, q.releases⟩
    | .ok items => ⟨.ok (.obj [("content", items)]), q.st, q.ups, q.sends, q.releases⟩

/-- Translation of `MondayMCPServer.get_user_workload` (no cache). -/
def getUserWorkload (st : ServerState) (_now : Int) (ups : List UpOutcome)
    (parameters : Json) : HOut :=
  match parameters.get? "user_id" with
  | none => ⟨.error (.valueError "user_id parameter is required"), st, ups, 0, 0⟩
  | some _ =>
    let q := liftApi st ups
    match q.res with
    | .error e => ⟨.error e, q.st, q.ups, q.sends, q.releases⟩
    | .ok result =>
      match result.subscript "items_by_person_id" with
      | .error e => ⟨.error e, q.st, q.ups, q.sends, q.releases⟩
      | .ok items => ⟨.ok (.obj [("content", items)]), q.st, q.ups, q.sends, q.releases⟩

/-- The generator `next((col for col in columns if col["type"] == "status"), None)`
of `list_items_by_status`: scans in order, propagating the subscript fault of
any column visited before a match. -/
def findStatusColumn : List Json → Except PyError (Option Json)
| [] => .ok none
| c :: cs =>
  match c.subscript "type" with
  | .error e => .error e
  | .ok t => if Json.beq t (.str "status") then .ok (some c) else findStatusColumn cs

/-- Extraction of the status column in `list_items_by_status`:
`json.loads(board_structure_result["content"])["columns"]` scanned by
`findStatusColumn`. `json.loads` of the carried payload is the payload
itself in this model. -/
def statusColumnOf (bsr : Json) : Except PyError (Option Json) := do
  let board_structure ← bsr.subscript "content"
  let columns ← board_structure.subscript "columns"
  match columns with
  | .arr cols => findStatusColumn cols
  | _ => .error (.typeError "not iterable")

/-- The list comprehension of `list_items_by_status`: keep the items whose
`column_values[0]["text"].lower()` equals `status.lower()`, visiting items in
order and propagating the first fault. -/
def filterByStatus (status : Json) : List Json → Except PyError (List Json)
| [] => .ok []
| it :: its => do
  let cv ← it.subscript "column_values"
  let c0 ← cv.index 0
  let tx ← c0.subscript "text"
  let tl ← tx.pyLower
  let sl ← status.pyLower
  let rest ← filterByStatus status its
  if tl = sl then pure (it :: rest) else pure rest

/-- Translation of `MondayMCPServer.list_items_by_status`: two sequential
upstream calls (one through `get_board_structure`), with counters summed. -/
def listItemsByStatus (st : ServerState) (now : Int) (ups : List UpOutcome)
    (parameters : Json) : HOut :=
  match parameters.get? "board_id", parameters.get? "status" with
  | some board_id, some status =>
    let r1 := getBoardStructure st now ups (.obj [("board_id", board_id)])
    match r1.res with
    | .error e => ⟨.error e, r1.st, r1.ups, r1.sends, r1.releases⟩
    | .ok bsr =>
      match statusColumnOf bsr with
      | .error e => ⟨.error e, r1.st, r1.ups, r1.sends, r1.releases⟩
      | .ok none =>
        ⟨.error (.valueError "Status column not found on this board"),
         r1.st, r1.ups, r1.sends, r1.releases⟩
      | .ok (some status_column) =>
        match status_column.subscript "id" with
        | .error e => ⟨.error e, r1.st, r1.ups, r1.sends, r1.releases⟩
        | .ok _ =>
          let r2 := liftApi r1.st r1.ups
          match r2.res with
          | .error e => ⟨.error e, r2.st, r2.ups, r1.sends + r2.sends, r1.releases + r2.releases⟩
          | .ok result =>
            match (do
              let bs ← result.subscript "boards"
              let b0 ← bs.index 0
              b0.subscript "items" : Except PyError Json) with
            | .error e =>
              ⟨.error e, r2.st, r2.ups, r1.sends + r2.sends, r1.releases + r2.releases⟩
            | .ok items =>
              match items with
              | .arr its =>
                match filterByStatus status its with
                | .error e =>
                  ⟨.error e, r2.st, r2.ups, r1.sends + r2.sends, r1.releases + r2.releases⟩
                | .ok filtered =>
                  ⟨.ok (.obj [("content", .arr filtered)]),
                   r2.st, r2.ups, r1.sends + r2.sends, r1.releases + r2.releases⟩
              | _ =>
                ⟨.error (.typeError "not iterable"),
                 r2.st, r2.ups, r1.sends + r2.sends, r1.releases + r2.releases⟩
  | _, _ =>
    ⟨.error (.valueError "board_id and status parameters are required"), st, ups, 0, 0⟩

/-- Translation of `MondayMCPServer.create_item`. -/
def createItem (st : ServerState) (_now : Int) (ups : List UpOutcome)
    (parameters : Json) : HOut :=
  match parameters.subscript "board_id" with
  | .error e => ⟨.error e, st, ups, 0, 0⟩
  | .ok _ =>
    match parameters.subscript "item_name" with
    | .error e => ⟨.error e, st, ups, 0, 0⟩
    | .ok _ =>
      let q := liftApi st ups
      match q.res with
      | .error e => ⟨.error e, q.st, q.ups, q.sends, q.releases⟩
      | .ok result =>
        match (do
          let ci ← result.subscript "create_item"
          let idv ← ci.subscript "id"
          let nmv ← ci.subscript "name"
          pure (idv, nmv) : Except PyError (Json × Json)) with
        | .error e => ⟨.error e, q.st, q.ups, q.sends, q.releases⟩
        | .ok (idv, nmv) =>
          ⟨.ok (.obj [("result", .obj
            [("id", idv), ("name", nmv), ("message", .str "Item created successfully")])]),
           q.st, q.ups, q.sends, q.releases⟩

/-- Translation of `MondayMCPServer.update_item_status`. -/
def updateItemStatus (st : ServerState) (_now : Int) (ups : List UpOutcome)
    (parameters : Json) : HOut :=
  match parameters.subscript "item_id" with
  | .error e => ⟨.error e, st, ups, 0, 0⟩
  | .ok _ =>
    match parameters.subscript "status_column_id" with
    | .error e => ⟨.error e, st, ups, 0, 0⟩
    | .ok _ =>
      match parameters.subscript "new_status" with
      | .error e => ⟨.error e, st, ups, 0, 0⟩
      | .ok _ =>
        let q := liftApi st ups
        match q.res with
        | .error e => ⟨.error e, q.st, q.ups, q.sends, q.releases⟩
        | .ok result =>
          match (do
            let cv ← result.subscript "change_column_value"
            cv.subscript "id" : Except PyError Json) with
          | .error e => ⟨.error e, q.st, q.ups, q.sends, q.releases⟩
          | .ok idv =>
            ⟨.ok (.obj [("result", .obj
              [("id", idv), ("message", .str "Status updated successfully")])]),
             q.st, q.ups, q.sends, q.releases⟩

/-- Translation of `MondayMCPServer.assign_user_to_item`. -/
def assignUserToItem (st : ServerState) (_now : Int) (ups : List UpOutcome)
    (parameters : Json) : HOut :=
  match parameters.subscript "item_id" with
  | .error e => ⟨.error e, st, ups, 0, 0⟩
  | .ok _ =>
    match parameters.subscript "user_id" with
    | .error e => ⟨.error e, st, ups, 0, 0⟩
    | .ok _ =>
      match parameters.subscript "person_column_id" with
      | .error e => ⟨.error e, st, ups, 0, 0⟩
      | .ok _ =>
        let q := liftApi st ups
        match q.res with
        | .error e => ⟨.error e, q.st, q.ups, q.sends, q.releases⟩
        | .ok result =>
          match (do
            let cv ← result.subscript "change_column_value"
            cv.subscript "id" : Except PyError Json) with
          | .error e => ⟨.error e, q.st, q.ups, q.sends, q.releases⟩
          | .ok idv =>
            ⟨.ok (.obj [("result", .obj
              [("id", idv), ("message", .str "User assigned successfully")])]),
             q.st, q.ups, q.sends, q.releases⟩

/-- Translation of `MondayMCPServer.add_update_to_item`. -/
def addUpdateToItem (st : ServerState) (_now : Int) (ups : List UpOutcome)
    (parameters : Json) : HOut :=
  match parameters.subscript "item_id" with
  | .error e => ⟨.error e, st, ups, 0, 0⟩
  | .ok _ =>
    match parameters.subscript "update_text" with
    | .error e => ⟨.error e, st, ups, 0, 0⟩
    | .ok _ =>
      let q := liftApi st ups
      match q.res with
      | .error e => ⟨.error e, q.st, q.ups, q.sends, q.releases⟩
      | .ok result =>
        match (do
          let cu ← result.subscript "create_update"
          cu.subscript "id" : Except PyError Json) with
        | .error e => ⟨.error e, q.st, q.ups, q.sends, q.releases⟩
        | .ok idv =>
          ⟨.ok (.obj [("result", .obj
            [("id", idv), ("message", .str "Update added successfully")])]),
           q.st, q.ups, q.sends, q.releases⟩

/-- The static catalog returned by `MondayMCPServer.list_resources`. -/
def listResourcesResult : Json :=
  .obj [("resources", .arr [
    .obj [("id", .str "list_boards"), ("name", .str "Boards"),
          ("description", .str "List all accessible boards")],
    .obj [("id", .str "get_board_structure"), ("name", .str "Board Structure"),
          ("description", .str "Get the structure of a specific board")],
    .obj [("id", .str "list_items_by_board"), ("name", .str "Items by Board"),
          ("description", .str "List all items in a specific board")],
    .obj [("id", .str "list_items_by_status"), ("name", .str "Items by Status"),
          ("description", .str "List items filtered by status")],
    .obj [("id", .str "list_overdue_items"), ("name", .str "Overdue Items"),
          ("description", .str "List items past their due dates")],
    .obj [("id", .str "get_user_details"), ("name", .str "User Details"),
          ("description", .str "Get details about team members")],
    .obj [("id", .str "get_user_workload"), ("name", .str "User Workload"),
          ("description", .str "View task distribution across team members")]])]

/-- The static catalog returned by `MondayMCPServer.list_tools`. -/
def listToolsResult : Json :=
  .obj [("tools", .arr [
    .obj [("name", .str "create_item"),
          ("description", .str "Create a new item on a board"),
          ("parameters", .obj [
            ("type", .str "object"),
            ("properties", .obj [
              ("board_id", .obj [("type", .str "number"),
                ("description", .str "The ID of the board")]),
              ("group_id", .obj [("type", .str "string"),
                ("description", .str "The ID of the group to add the item to")]),
              ("item_name", .obj [("type", .str "string"),
                ("description", .str "The name of the item to create")]),
              ("column_values", .obj [("type", .str "object"),
                ("description", .str "Column values for the new item")])]),
            ("required", .arr [.str "board_id", .str "item_name"])])],
    .obj [("name", .str "update_item_status"),
          ("description", .str "Update the status of an item"),
          ("parameters", .obj [
            ("type", .str "object"),
            ("properties", .obj [
              ("item_id", .obj [("type", .str "number"),
                ("description", .str "The ID of the item")]),
              ("status_column_id", .obj [("type", .str "string"),
                ("description", .str "The ID of the status column")]),
              ("new_status", .obj [("type", .str "string"),
                ("description", .str "The new status value")])]),
            ("required", .arr [.str "item_id", .str "status_column_id", .str "new_status"])])],
    .obj [("name", .str "assign_user_to_item"),
          ("description", .str "Assign a user to an item"),
          ("parameters", .obj [
            ("type", .str "object"),
            ("properties", .obj [
              ("item_id", .obj [("type", .str "number"),
                ("description", .str "The ID of the item")]),
              ("user_id", .obj [("type", .str "number"),
                ("description", .str "The ID of the user to assign")]),
              ("person_column_id", .obj [("type", .str "string"),
                ("description", .str "The ID of the person column")])]),
            ("required", .arr [.str "item_id", .str "user_id", .str "person_column_id"])])],
    .obj [("name", .str "add_update_to_item"),
          ("description", .str "Add an update/comment to an item"),
          ("parameters", .obj [
            ("type", .str "object"),
            ("properties", .obj [
              ("item_id", .obj [("type", .str "number"),
                ("description", .str "The ID of the item")]),
              ("update_text", .obj [("type", .str "string"),
                ("description", .str "The text of the update")])]),
            ("required", .arr [.str "item_id", .str "update_text"])])]])]

/-- The static catalog returned by `MondayMCPServer.list_prompts`. -/
def listPromptsResult : Json :=
  .obj [("prompts", .arr [
    .obj [("id", .str "project_initiation"), ("name", .str "Project Initiation"),
          ("description", .str "Start a new project with initial tasks and team assignments")],
    .obj [("id", .str "sprint_planning"), ("name", .str "Sprint Planning"),
          ("description", .str "Move items from backlog to current sprint with estimates and priorities")],
    .obj [("id", .str "risk_management"), ("name", .str "Risk Management"),
          ("description", .str "Identify and escalate tasks at risk")]])]

/-- The `project_initiation` prompt content of `MondayMCPServer.read_prompt`. -/
def projectInitiationPrompt : Json :=
  .obj [("name", .str "Project Initiation"),
    ("description", .str "Start a new project with initial tasks and team assignments"),
    ("steps", .arr [
      .obj [("id", .str "create_board"), ("type", .str "input"),
        ("label", .str "Create a new project board"),
        ("fields", .arr [
          .obj [("id", .str "board_name"), ("label", .str "Project Name"),
            ("type", .str "text"), ("required", .bool true)],
          .obj [("id", .str "template_id"), ("label", .str "Template"),
            ("type", .str "select"),
            ("options", .arr [
              .obj [("label", .str "Basic Project"), ("value", .str "1")],
              .obj [("label", .str "Scrum"), ("value", .str "2")],
              .obj [("label", .str "Kanban"), ("value", .str "3")]]),
            ("required", .bool true)]])],
      .obj [("id", .str "assign_team"), ("type", .str "input"),
        ("label", .str "Assign Team Members"),
        ("fields", .arr [
          .obj [("id", .str "team_members"), ("label", .str "Team Members"),
            ("type", .str "multiselect"), ("dynamicOptions", .str "users"),
            ("required", .bool true)]])],
      .obj [("id", .str "setup_tasks"), ("type", .str "input"),
        ("label", .str "Set Up Initial Tasks"),
        ("fields", .arr [
          .obj [("id", .str "tasks"), ("label", .str "Tasks"),
            ("type", .str "textarea"),
            ("placeholder", .str "Enter tasks (one per line)"),
            ("required", .bool true)]])]])]

/-- The `sprint_planning` prompt content of `MondayMCPServer.read_prompt`. -/
def sprintPlanningPrompt : Json :=
  .obj [("name", .str "Sprint Planning"),
    ("description", .str "Move items from backlog to current sprint with estimates and priorities"),
    ("steps", .arr [
      .obj [("id", .str "select_board"), ("type", .str "input"),
        ("label", .str "Select Project Board"),
        ("fields", .arr [
          .obj [("id", .str "board_id"), ("label", .str "Board"),
            ("type", .str "select"), ("dynamicOptions", .str "boards"),
            ("required", .bool true)]])],
      .obj [("id", .str "select_backlog_items"), ("type", .str "input"),
        ("label", .str "Select Backlog Items for Sprint"),
        ("fields", .arr [
          .obj [("id", .str "backlog_items"), ("label", .str "Backlog Items"),
            ("type", .str "multiselect"), ("dynamicOptions", .str "items_by_status"),
            ("required", .bool true)]])],
      .obj [("id", .str "set_estimates"), ("type", .str "input"),
        ("label", .str "Set Estimates and Priorities"),
        ("fields", .arr [
          .obj [("id", .str "due_date"), ("label", .str "Sprint End Date"),
            ("type", .str "date"), ("required", .bool true)]])]])]

/-- The `risk_management` prompt content of `MondayMCPServer.read_prompt`. -/
def riskManagementPrompt : Json :=
  .obj [("name", .str "Risk Management"),
    ("description", .str "Identify and escalate tasks at risk"),
    ("steps", .arr [
      .obj [("id", .str "select_project"), ("type", .str "input"),
        ("label", .str "Select Project"),
        ("fields", .arr [
          .obj [("id", .str "board_id"), ("label", .str "Board"),
            ("type", .str "select"), ("dynamicOptions", .str "boards"),
            ("required", .bool true)]])],
      .obj [("id", .str "identify_risks"), ("type", .str "display"),
        ("label", .str "Identifying Tasks at Risk..."),
        ("computedContent", .str "delayed_tasks")],
      .obj [("id", .str "escalate_risks"), ("type", .str "input"),
        ("label", .str "Escalate Selected Risks"),
        ("fields", .arr [
          .obj [("id", .str "risk_items"), ("label", .str "Items at Risk"),
            ("type", .str "multiselect"), ("dynamicOptions", .str "delayed_tasks"),
            ("required", .bool true)],
          .obj [("id", .str "notify_users"), ("label", .str "Notify"),
            ("type", .str "multiselect"), ("dynamicOptions", .str "users"),
            ("required", .bool true)],
          .obj [("id", .str "escalation_message"), ("label", .str "Message"),
            ("type", .str "textarea"), ("required", .bool true)]])]])]

/-- The keys of the `resource_handlers` dictionary built inside
`MondayMCPServer.read_resource`, as an enumeration of the bound methods. -/
inductive ResourceHandler where
| list_boards : ResourceHandler
| get_board_structure : ResourceHandler
| list_items_by_board : ResourceHandler
| list_items_by_status : ResourceHandler
| list_overdue_items : ResourceHandler
| get_user_details : ResourceHandler
| get_user_workload : ResourceHandler
deriving DecidableEq, Repr

/-- Generic lookup in a string-keyed handler table. -/
def tableGet {α : Type} : List (String × α) → String → Option α
| [], _ => none
| (k, v) :: t, key => if k = key then some v else tableGet t key

/-- The `resource_handlers` dictionary of `MondayMCPServer.read_resource`. -/
def resource_handlers : List (String × ResourceHandler) :=
  [("list_boards", .list_boards),
   ("get_board_structure", .get_board_structure),
   ("list_items_by_board", .list_items_by_board),
   ("list_items_by_status", .list_items_by_status),
   ("list_overdue_items", .list_overdue_items),
   ("get_user_details", .get_user_details),
   ("get_user_workload", .get_user_workload)]

/-- Membership test `resource_id in resource_handlers`: a non-string id is in
no string-keyed dictionary. -/
def resolveResource : Json → Option ResourceHandler
| .str s => tableGet resource_handlers s
| _ => none

/-- Invocation of a resolved resource handler. -/
def invokeResource : ResourceHandler → ServerState → Int → List UpOutcome → Json → HOut
| .list_boards => listBoards
| .get_board_structure => getBoardStructure
| .list_items_by_board => listItemsByBoard
| .list_items_by_status => listItemsByStatus
| .list_overdue_items => listOverdueItems
| .get_user_details => getUserDetails
| .get_user_workload => getUserWorkload

/-- Python `if parameters is None: parameters = \x7b\x7d` of `read_resource`:
both an absent argument and an explicit `None` become the empty mapping. -/
def noneToEmpty : Option Json → Json
| none => .obj []
| some .null => .obj []
| some p => p

/-- Translation of `MondayMCPServer.read_resource`: resolve the id in the
handler dictionary, raising the not-found `ValueError` when absent. -/
def readResource (st : ServerState) (now : Int) (ups : List UpOutcome)
    (resource_id : Json) (parameters : Option Json) : HOut :=
  let ps := noneToEmpty parameters
  match resolveResource resource_id with
  | some h => invokeResource h st now ups ps
  | none =>
    ⟨.error (.valueError ("Resource " ++ resource_id.pyStr ++ " not found")), st, ups, 0, 0⟩

/-- The keys of the `tool_handlers` dictionary built inside
`MondayMCPServer.call_tool`. -/
inductive ToolHandler where
| create_item : ToolHandler
| update_item_status : ToolHandler
| assign_user_to_item : ToolHandler
| add_update_to_item : ToolHandler
deriving DecidableEq, Repr

/-- The `tool_handlers` dictionary of `MondayMCPServer.call_tool`. -/
def tool_handlers : List (String × ToolHandler) :=
  [("create_item", .create_item),
   ("update_item_status", .update_item_status),
   ("assign_user_to_item", .assign_user_to_item),
   ("add_update_to_item", .add_update_to_item)]

/-- Membership test `name in tool_handlers`. -/
def resolveTool : Json → Option ToolHandler
| .str s => tableGet tool_handlers s
| _ => none

/-- Invocation of a resolved tool handler. -/
def invokeTool : ToolHandler → ServerState → Int → List UpOutcome → Json → HOut
| .create_item => createItem
| .update_item_status => updateItemStatus
| .assign_user_to_item => assignUserToItem
| .add_update_to_item => addUpdateToItem

/-- Translation of `MondayMCPServer.call_tool`. -/
def callTool (st : ServerState) (now : Int) (ups : List UpOutcome)
    (name : Json) (parameters : Json) : HOut :=
  match resolveTool name with
  | some h => invokeTool h st now ups parameters
  | none =>
    ⟨.error (.valueError ("Tool " ++ name.pyStr ++ " not found")), st, ups, 0, 0⟩

/-- Translation of `MondayMCPServer.read_prompt`: an if/elif chain on the
prompt id, raising the not-found `ValueError` on anything else. No state, no
upstream call. -/
def readPrompt (st : ServerState) (ups : List UpOutcome) (prompt_id : Json) : HOut :=
  match prompt_id with
  | .str "project_initiation" =>
    ⟨.ok (.obj [("content", projectInitiationPrompt)]), st, ups, 0, 0⟩
  | .str "sprint_planning" =>
    ⟨.ok (.obj [("content", sprintPlanningPrompt)]), st, ups, 0, 0⟩
  | .str "risk_management" =>
    ⟨.ok (.obj [("content", riskManagementPrompt)]), st, ups, 0, 0⟩
  | other =>
    ⟨.error (.valueError ("Prompt " ++ other.pyStr ++ " not found")), st, ups, 0, 0⟩

/-- Translation of `MondayMCPServer.process_request`. `request.get("method")`
and `request.get("params", \x7b\x7d)` use dictionary `get`; the required
fields `resourceId`, `name`, `parameters` and `promptId` are read with plain
subscripting, so a missing field raises `KeyError` (argument evaluation is
left to right, so for `CallTool` the `name` subscript faults first). -/
def processRequest (st : ServerState) (now : Int) (ups : List UpOutcome)
    (request : Json) : HOut :=
  let params := (request.get? "params").getD (.obj [])
  match request.get? "method" with
  | some (.str "ListResources") => ⟨.ok listResourcesResult, st, ups, 0, 0⟩
  | some (.str "ReadResource") =>
    match params.subscript "resourceId" with
    | .error e => ⟨.error e, st, ups, 0, 0⟩
    | .ok rid => readResource st now ups rid (params.get? "parameters")
  | some (.str "ListTools") => ⟨.ok listToolsResult, st, ups, 0, 0⟩
  | some (.str "CallTool") =>
    match params.subscript "name" with
    | .error e => ⟨.error e, st, ups, 0, 0⟩
    | .ok nm =>
      match params.subscript "parameters" with
      | .error e => ⟨.error e, st, ups, 0, 0⟩
      | .ok prms => callTool st now ups nm prms
  | some (.str "ListPrompts") => ⟨.ok listPromptsResult, st, ups, 0, 0⟩
  | some (.str "ReadPrompt") =>
    match params.subscript "promptId" with
    | .error e => ⟨.error e, st, ups, 0, 0⟩
    | .ok pid => readPrompt st ups pid
  | m =>
    ⟨.error (.valueError ("Unsupported method: " ++ (m.map Json.pyStr).getD "None")),
     st, ups, 0, 0⟩

/-- Acquire succeeded: `_check_rate_limit` returned rather than raised. -/
def acquireOk (r : RateLimits) : Bool :=
  match (checkRateLimit r).1 with
  | .ok _ => true
  | .error _ => false

/-- One operation on the shared quota state. -/
inductive QuotaOp where
| acquire : QuotaOp
| release : QuotaOp
deriving DecidableEq, Repr

/-- Effect of one operation on the quota state: a failed acquire raises
before mutating, so it leaves the state as is. -/
def quotaStep (r : RateLimits) : QuotaOp → RateLimits
| .acquire => (checkRateLimit r).2
| .release => releaseRateLimit r

/-- Run a sequence of quota operations from a starting state. -/
def quotaRun (r : RateLimits) (ops : List QuotaOp) : RateLimits :=
  ops.foldl quotaStep r

/-- Correct pairing of releases with acquires: at every prefix of the
sequence, each release corresponds to an earlier successful acquire whose
permit is still outstanding. -/
def wellPaired (r : RateLimits) (outstanding : Int) : List QuotaOp → Bool
| [] => true
| .acquire :: ops =>
  wellPaired (quotaStep r .acquire) (outstanding + (if acquireOk r then 1 else 0)) ops
| .release :: ops =>
  decide (0 < outstanding) && wellPaired (quotaStep r .release) (outstanding - 1) ops

/-- Quota safety is preserved by every single step: the ceiling 10 on
`active_requests` and non-negativity of `daily_remaining`. -/
theorem quotaStep_invariant (r : RateLimits) (op : QuotaOp)
    (h1 : r.active_requests ≤ 10) (h2 : 0 ≤ r.daily_remaining) :
    (quotaStep r op).active_requests ≤ 10 ∧ 0 ≤ (quotaStep r op).daily_remaining := by
  cases op with
  | acquire =>
    unfold quotaStep checkRateLimit
    by_cases ha : r.daily_remaining ≤ 0
    · rw [if_pos ha]
      exact ⟨h1, h2⟩
    · by_cases hb : r.active_requests ≥ 10
      · rw [if_neg ha, if_pos hb]
        exact ⟨h1, h2⟩
      · rw [if_neg ha, if_neg hb]
        refine ⟨?_, ?_⟩ <;> dsimp only <;> omega
  | release =>
    unfold quotaStep releaseRateLimit
    refine ⟨?_, ?_⟩ <;> dsimp only <;> omega

/-- Quota safety is preserved by every run. -/
theorem quotaRun_invariant (ops : List QuotaOp) : ∀ (r : RateLimits),
    r.active_requests ≤ 10 → 0 ≤ r.daily_remaining →
    (quotaRun r ops).active_requests ≤ 10 ∧ 0 ≤ (quotaRun r ops).daily_remaining := by
  induction ops with
  | nil => intro r h1 h2; exact ⟨h1, h2⟩
  | cons op ops ih =>
    intro r h1 h2
    have h := quotaStep_invariant r op h1 h2
    exact ih (quotaStep r op) h.1 h.2

/-- C1: in every execution of `query_monday_api` in which `_check_rate_limit`
succeeds, `_release_rate_limit` runs exactly once, whatever the outcome of
the wrapped call (success, upstream error list, malformed body, or transport
failure); when the acquire itself raises, no release happens. -/
theorem C1_release_exactly_once (r : RateLimits) (ups : List UpOutcome) :
    (acquireOk r = true → (queryMondayApi r ups).releases = 1)
  ∧ (acquireOk r = false → (queryMondayApi r ups).releases = 0) := by
  unfold acquireOk queryMondayApi
  rcases hc : checkRateLimit r with ⟨res, r2⟩
  rcases res with e | b
  · simp
  · simp only [reduceCtorEq, imp_false, true_implies, false_implies, and_true,
      Bool.true_eq_false]
    rcases htu : takeUp ups with ⟨u, ups2⟩
    rcases u with e | result
    · simp
    · simp only []
      by_cases hk : result.hasKey "errors"
      · simp only [hk, if_true]
        split <;> rfl
      · simp only [hk, if_false, Bool.false_eq_true]
        split <;> rfl

/-- Witness for C1 at concrete inputs: the fresh initial state acquires
successfully and releases once; an exhausted state acquires nothing and
releases nothing. -/
theorem C1_release_exactly_once_witness :
    (queryMondayApi (initRate 0) []).releases = 1 ∧
    (queryMondayApi { daily_remaining := 0, reset_time := 0, active_requests := 0 } []).releases = 0 :=
  ⟨(C1_release_exactly_once (initRate 0) []).1 (by decide),
   (C1_release_exactly_once { daily_remaining := 0, reset_time := 0, active_requests := 0 } []).2
     (by decide)⟩

/-- C2: the translated `_check_rate_limit` never reads the clock and contains
no reset branch, so at a state whose window has long passed (reset_time =
1000, i.e. any call time now with now at least 1000) an acquire with
`daily_remaining = 0` still raises RateLimitExceeded and leaves
`daily_remaining` and `reset_time` untouched, contradicting the lazy
check-on-access reset the claim (and the message "Resets at ..." of the code
itself) promises. -/
theorem C2_no_window_reset :
    checkRateLimit { daily_remaining := 0, reset_time := 1000, active_requests := 0 }
      = (.error (.valueError ("Rate limit exceeded. Resets at " ++ isoformat 1000)),
         { daily_remaining := 0, reset_time := 1000, active_requests := 0 }) := by
  rfl

/-- C4: acquire fails with the RateLimitExceeded message carrying the
rendered `reset_time` when the daily budget is zero; fails with the
concurrency message when ten requests are in flight and budget remains;
otherwise succeeds, decrementing `daily_remaining` by exactly one and
incrementing `active_requests` by exactly one. -/
theorem C4_acquire_cases (r : RateLimits) (h : 0 ≤ r.daily_remaining) :
    (r.daily_remaining = 0 →
      checkRateLimit r =
        (.error (.valueError ("Rate limit exceeded. Resets at " ++ isoformat r.reset_time)), r))
  ∧ (0 < r.daily_remaining → 10 ≤ r.active_requests →
      checkRateLimit r =
        (.error (.valueError "Too many concurrent requests. Please try again."), r))
  ∧ (r.daily_remaining ≠ 0 → r.active_requests < 10 →
      checkRateLimit r =
        (.ok true, { r with daily_remaining := r.daily_remaining - 1,
                            active_requests := r.active_requests + 1 })) := by
  refine ⟨fun h1 => ?_, fun h1 h2 => ?_, fun h1 h2 => ?_⟩
  · unfold checkRateLimit
    rw [if_pos (by omega)]
  · unfold checkRateLimit
    rw [if_neg (by omega), if_pos (by omega)]
  · unfold checkRateLimit
    rw [if_neg (by omega), if_neg (by omega)]

/-- Witness for C4 at concrete states exercising all three cases. -/
theorem C4_acquire_cases_witness :
    (checkRateLimit { daily_remaining := 0, reset_time := 7, active_requests := 0 }
      = (.error (.valueError ("Rate limit exceeded. Resets at " ++ isoformat 7)),
         { daily_remaining := 0, reset_time := 7, active_requests := 0 }))
  ∧ (checkRateLimit { daily_remaining := 5, reset_time := 7, active_requests := 10 }
      = (.error (.valueError "Too many concurrent requests. Please try again."),
         { daily_remaining := 5, reset_time := 7, active_requests := 10 }))
  ∧ (checkRateLimit { daily_remaining := 5, reset_time := 7, active_requests := 2 }
      = (.ok true, { daily_remaining := 4, reset_time := 7, active_requests := 3 })) :=
  ⟨(C4_acquire_cases { daily_remaining := 0, reset_time := 7, active_requests := 0 }
      (by decide)).1 rfl,
   (C4_acquire_cases { daily_remaining := 5, reset_time := 7, active_requests := 10 }
      (by decide)).2.1 (by decide) (by decide),
   (C4_acquire_cases { daily_remaining := 5, reset_time := 7, active_requests := 2 }
      (by decide)).2.2 (by decide) (by decide)⟩

/-- C3: starting from the initial quota state, any sequence of acquires and
correctly paired releases keeps `active_requests` at or below the ceiling 10
and `daily_remaining` non-negative. -/
theorem C3_quota_invariant (t0 : Int) (ops : List QuotaOp)
    (_h : wellPaired (initRate t0) 0 ops = true) :
    (quotaRun (initRate t0) ops).active_requests ≤ 10
  ∧ 0 ≤ (quotaRun (initRate t0) ops).daily_remaining :=
  quotaRun_invariant ops (initRate t0) (by simp [initRate]) (by simp [initRate])

/-- Witness for C3: a concrete paired sequence from the initial state. -/
theorem C3_quota_invariant_witness :
    wellPaired (initRate 0) 0 [.acquire, .release, .acquire] = true
  ∧ ((quotaRun (initRate 0) [.acquire, .release, .acquire]).active_requests ≤ 10
      ∧ 0 ≤ (quotaRun (initRate 0) [.acquire, .release, .acquire]).daily_remaining) :=
  ⟨by decide, C3_quota_invariant 0 [.acquire, .release, .acquire] (by decide)⟩

/-- C9: whenever `_check_rate_limit` raises (budget exhausted or ceiling
reached), the whole rate-limit state is returned unchanged: both raises
happen before any mutation. -/
theorem C9_failed_acquire_frame (r : RateLimits) (h : acquireOk r = false) :
    (checkRateLimit r).2 = r := by
  unfold acquireOk at h
  unfold checkRateLimit at h ⊢
  by_cases ha : r.daily_remaining ≤ 0
  · rw [if_pos ha]
  · by_cases hb : r.active_requests ≥ 10
    · rw [if_neg ha, if_pos hb]
    · rw [if_neg ha, if_neg hb] at h
      simp at h

/-- Witness for C9 at both failure modes. -/
theorem C9_failed_acquire_frame_witness :
    (checkRateLimit { daily_remaining := 0, reset_time := 3, active_requests := 4 }).2
      = { daily_remaining := 0, reset_time := 3, active_requests := 4 }
  ∧ (checkRateLimit { daily_remaining := 9, reset_time := 3, active_requests := 10 }).2
      = { daily_remaining := 9, reset_time := 3, active_requests := 10 } :=
  ⟨C9_failed_acquire_frame { daily_remaining := 0, reset_time := 3, active_requests := 4 }
     (by decide),
   C9_failed_acquire_frame { daily_remaining := 9, reset_time := 3, active_requests := 10 }
     (by decide)⟩

/-- Dictionary assignment followed by lookup of the same key finds the new
entry. -/
theorem assocGet_assocSet_self (m : CacheMap) (k : Json) (e : CacheEntry) :
    assocGet (assocSet m k e) k = some e := by
  induction m with
  | nil =>
    unfold assocSet assocGet
    rw [if_pos (Json.beq_refl k)]
  | cons p m ih =>
    rcases p with ⟨k0, e0⟩
    unfold assocSet
    by_cases hb : Json.beq k0 k = true
    · rw [if_pos hb]
      unfold assocGet
      rw [if_pos hb]
    · rw [if_neg hb]
      unfold assocGet
      rw [if_neg hb]
      exact ih

/-- C5: a `put` followed by a `get` of the same key at time `now` serves the
stored value iff `now - storedAt < 300`; at or past the boundary the lookup
behaves as absent while the stale entry stays in the map; and a stale entry
in `list_boards` triggers one upstream fetch whose success overwrites the
entry with a fresh timestamp. -/
theorem C5_cache_ttl (m : CacheMap) (k v : Json) (t now : Int) :
    (cacheGet (cachePut m k v t) k now = some v ↔ now - t < 300)
  ∧ (300 ≤ now - t →
      cacheGet (cachePut m k v t) k now = none
      ∧ assocGet (cachePut m k v t) k = some ⟨t, v⟩)
  ∧ (∀ (st : ServerState) (ps boardsJson : Json),
      assocGet st.boards (.str "all") = some ⟨t, v⟩ →
      300 ≤ now - t →
      acquireOk st.rate = true →
      (listBoards st now [.body (.obj [("data", .obj [("boards", boardsJson)])])] ps).sends = 1
      ∧ assocGet
          (listBoards st now
            [.body (.obj [("data", .obj [("boards", boardsJson)])])] ps).st.boards
          (.str "all")
        = some ⟨now, boardsJson⟩) := by
  refine ⟨?_, fun hstale => ?_, fun st ps boardsJson hentry hstale hrate => ?_⟩
  · unfold cacheGet cachePut
    rw [assocGet_assocSet_self]
    dsimp only
    split_ifs with hf
    · simp
      omega
    · simp
      omega
  · unfold cacheGet cachePut
    rw [assocGet_assocSet_self]
    dsimp only
    rw [if_neg (by omega)]
    exact ⟨rfl, rfl⟩
  · have hmiss : cacheGet st.boards (.str "all") now = none := by
      unfold cacheGet
      rw [hentry]
      dsimp only
      rw [if_neg (by omega)]
    rcases hc : checkRateLimit st.rate with ⟨res, r2⟩
    rcases res with e | b
    · exfalso
      unfold acquireOk at hrate
      rw [hc] at hrate
      simp at hrate
    · have hq : queryMondayApi st.rate
          [.body (.obj [("data", .obj [("boards", boardsJson)])])]
          = ⟨.ok (.obj [("boards", boardsJson)]), releaseRateLimit r2, [], 1, 1⟩ := by
        unfold queryMondayApi
        rw [hc]
        rfl
      have hlist : listBoards st now
          [.body (.obj [("data", .obj [("boards", boardsJson)])])] ps
          = ⟨.ok (.obj [("content", boardsJson)]),
             { st with rate := releaseRateLimit r2,
                       boards := assocSet st.boards (.str "all") ⟨now, boardsJson⟩ },
             [], 1, 1⟩ := by
        unfold listBoards
        rw [hmiss]
        unfold liftApi
        rw [hq]
        rfl
      rw [hlist]
      exact ⟨rfl, assocGet_assocSet_self st.boards (.str "all") ⟨now, boardsJson⟩⟩

/-- Witness for C5 at a concrete put/get pair: a hit one second before the
boundary, a miss exactly at it with the stale entry still stored, and a
stale `list_boards` entry refetched and overwritten. -/
theorem C5_cache_ttl_witness :
    cacheGet (cachePut [] (.str "boards:all") (.arr []) 0) (.str "boards:all") 299
      = some (.arr [])
  ∧ cacheGet (cachePut [] (.str "boards:all") (.arr []) 0) (.str "boards:all") 300 = none
  ∧ (listBoards
      { rate := initRate 0, boards := [(.str "all", ⟨0, .null⟩)],
        board_structure := [], items := [], users := [] }
      300 [.body (.obj [("data", .obj [("boards", .arr [])])])] (.obj [])).sends = 1 :=
  ⟨(C5_cache_ttl [] (.str "boards:all") (.arr []) 0 299).1.mpr (by norm_num),
   ((C5_cache_ttl [] (.str "boards:all") (.arr []) 0 300).2.1 (by norm_num)).1,
   ((C5_cache_ttl [] (.str "all") .null 0 300).2.2
     { rate := initRate 0, boards := [(.str "all", ⟨0, .null⟩)],
       board_structure := [], items := [], users := [] }
     (.obj []) (.arr []) rfl (by norm_num) (by decide)).1⟩

/-- C10: a read that hits a fresh cache entry (strictly inside the 300 second
window) returns the cached payload wrapped as content and leaves the entire
server state, the upstream oracle and both counters untouched, for each of
the three cached handlers. -/
theorem C10_fresh_hit_frame (st : ServerState) (now : Int) (ups : List UpOutcome) :
    (∀ (ps : Json) (e : CacheEntry),
      assocGet st.boards (.str "all") = some e →
      now - 300 < e.timestamp →
      listBoards st now ups ps = ⟨.ok (.obj [("content", e.data)]), st, ups, 0, 0⟩)
  ∧ (∀ (ps : List (String × Json)) (bid : Json) (e : CacheEntry),
      jlook ps "board_id" = some bid →
      assocGet st.board_structure (.str ("structure-" ++ bid.pyStr)) = some e →
      now - 300 < e.timestamp →
      getBoardStructure st now ups (.obj ps) = ⟨.ok (.obj [("content", e.data)]), st, ups, 0, 0⟩)
  ∧ (∀ (ps : List (String × Json)) (uid : Json) (e : CacheEntry),
      jlook ps "user_id" = some uid →
      assocGet st.users uid = some e →
      now - 300 < e.timestamp →
      getUserDetails st now ups (.obj ps) = ⟨.ok (.obj [("content", e.data)]), st, ups, 0, 0⟩) := by
  refine ⟨fun ps e he hf => ?_, fun ps bid e hb he hf => ?_, fun ps uid e hu he hf => ?_⟩
  · unfold listBoards cacheGet
    rw [he]
    dsimp only
    rw [if_pos hf]
  · unfold getBoardStructure
    simp only [Json.get?]
    rw [hb]
    unfold cacheGet
    dsimp only
    rw [he]
    dsimp only
    rw [if_pos hf]
  · unfold getUserDetails
    simp only [Json.get?]
    rw [hu]
    unfold cacheGet
    dsimp only
    rw [he]
    dsimp only
    rw [if_pos hf]

/-- Witness for C10 at a concrete state holding fresh entries in all three
caches, read at the last instant of the window. -/
theorem C10_fresh_hit_frame_witness :
    listBoards
      { rate := initRate 0, boards := [(.str "all", ⟨0, .num 7⟩)],
        board_structure := [(.str "structure-5", ⟨0, .num 8⟩)], items := [],
        users := [(.num 5, ⟨0, .num 9⟩)] }
      299 [] (.obj [])
      = ⟨.ok (.obj [("content", .num 7)]),
         { rate := initRate 0, boards := [(.str "all", ⟨0, .num 7⟩)],
           board_structure := [(.str "structure-5", ⟨0, .num 8⟩)], items := [],
           users := [(.num 5, ⟨0, .num 9⟩)] }, [], 0, 0⟩
  ∧ getBoardStructure
      { rate := initRate 0, boards := [(.str "all", ⟨0, .num 7⟩)],
        board_structure := [(.str "structure-5", ⟨0, .num 8⟩)], items := [],
        users := [(.num 5, ⟨0, .num 9⟩)] }
      299 [] (.obj [("board_id", .num 5)])
      = ⟨.ok (.obj [("content", .num 8)]),
         { rate := initRate 0, boards := [(.str "all", ⟨0, .num 7⟩)],
           board_structure := [(.str "structure-5", ⟨0, .num 8⟩)], items := [],
           users := [(.num 5, ⟨0, .num 9⟩)] }, [], 0, 0⟩
  ∧ getUserDetails
      { rate := initRate 0, boards := [(.str "all", ⟨0, .num 7⟩)],
        board_structure := [(.str "structure-5", ⟨0, .num 8⟩)], items := [],
        users := [(.num 5, ⟨0, .num 9⟩)] }
      299 [] (.obj [("user_id", .num 5)])
      = ⟨.ok (.obj [("content", .num 9)]),
         { rate := initRate 0, boards := [(.str "all", ⟨0, .num 7⟩)],
           board_structure := [(.str "structure-5", ⟨0, .num 8⟩)], items := [],
           users := [(.num 5, ⟨0, .num 9⟩)] }, [], 0, 0⟩ :=
  ⟨(C10_fresh_hit_frame
      { rate := initRate 0, boards := [(.str "all", ⟨0, .num 7⟩)],
        board_structure := [(.str "structure-5", ⟨0, .num 8⟩)], items := [],
        users := [(.num 5, ⟨0, .num 9⟩)] } 299 []).1
      (.obj []) ⟨0, .num 7⟩ rfl (by norm_num),
   (C10_fresh_hit_frame
      { rate := initRate 0, boards := [(.str "all", ⟨0, .num 7⟩)],
        board_structure := [(.str "structure-5", ⟨0, .num 8⟩)], items := [],
        users := [(.num 5, ⟨0, .num 9⟩)] } 299 []).2.1
      [("board_id", .num 5)] (.num 5) ⟨0, .num 8⟩ rfl rfl (by norm_num),
   (C10_fresh_hit_frame
      { rate := initRate 0, boards := [(.str "all", ⟨0, .num 7⟩)],
        board_structure := [(.str "structure-5", ⟨0, .num 8⟩)], items := [],
        users := [(.num 5, ⟨0, .num 9⟩)] } 299 []).2.2
      [("user_id", .num 5)] (.num 5) ⟨0, .num 9⟩ rfl rfl (by norm_num)⟩

/-- Modelled from the spec error-handling section: a `MissingParameter`
descriptor is a deliberate, well-formed error report, whereas a raised
`KeyError` (or `IndexError`, `TypeError`, `AttributeError`) is an unhandled
Python fault escaping the router. Only `ValueError` carries the descriptors
this server deliberately raises. -/
def PyError.isUnhandledFault : PyError → Bool
| .valueError _ => false
| _ => true

/-- Subscripting a mapping that lacks the key raises `KeyError`. -/
theorem subscript_of_jlook_none (ps : List (String × Json)) (k : String)
    (h : jlook ps k = none) : Json.subscript (.obj ps) k = .error (.keyError k) := by
  have hred : Json.subscript (.obj ps) k
      = (match jlook ps k with
         | some v => Except.ok v
         | none => Except.error (.keyError k)) := rfl
  rw [hred, h]

/-- Subscripting a mapping that has the key returns its value. -/
theorem subscript_of_jlook_some (ps : List (String × Json)) (k : String) (v : Json)
    (h : jlook ps k = some v) : Json.subscript (.obj ps) k = .ok v := by
  have hred : Json.subscript (.obj ps) k
      = (match jlook ps k with
         | some v => Except.ok v
         | none => Except.error (.keyError k)) := rfl
  rw [hred, h]

/-- C6 counterexample: a `ReadResource` request with empty params makes
`process_request` raise a bare `KeyError("resourceId")` - an unhandled fault
escaping to the caller - not a `MissingParameter` descriptor. -/
theorem C6_counterexample :
    (processRequest (initServer 0) 0 []
      (.obj [("method", .str "ReadResource"), ("params", .obj [])])).res
      = .error (.keyError "resourceId")
  ∧ PyError.isUnhandledFault (.keyError "resourceId") = true :=
  ⟨rfl, rfl⟩

/-- C6 as amended: for every inbound request whose params mapping lacks a
required field (`resourceId` for ReadResource, `name` or `parameters` for
CallTool, `promptId` for ReadPrompt), `process_request` raises a `KeyError`
naming the absent field, leaving state, oracle and counters untouched; no
`MissingParameter` descriptor is produced. -/
theorem C6_missing_field_keyerror (st : ServerState) (now : Int)
    (ups : List UpOutcome) (ps : List (String × Json)) :
    (jlook ps "resourceId" = none →
      processRequest st now ups (.obj [("method", .str "ReadResource"), ("params", .obj ps)])
        = ⟨.error (.keyError "resourceId"), st, ups, 0, 0⟩)
  ∧ (jlook ps "name" = none →
      processRequest st now ups (.obj [("method", .str "CallTool"), ("params", .obj ps)])
        = ⟨.error (.keyError "name"), st, ups, 0, 0⟩)
  ∧ (∀ nm : Json, jlook ps "name" = some nm → jlook ps "parameters" = none →
      processRequest st now ups (.obj [("method", .str "CallTool"), ("params", .obj ps)])
        = ⟨.error (.keyError "parameters"), st, ups, 0, 0⟩)
  ∧ (jlook ps "promptId" = none →
      processRequest st now ups (.obj [("method", .str "ReadPrompt"), ("params", .obj ps)])
        = ⟨.error (.keyError "promptId"), st, ups, 0, 0⟩) := by
  refine ⟨fun h => ?_, fun h => ?_, fun nm hnm h => ?_, fun h => ?_⟩
  · have key : processRequest st now ups
        (.obj [("method", .str "ReadResource"), ("params", .obj ps)])
        = (match Json.subscript (.obj ps) "resourceId" with
           | .error e => (⟨.error e, st, ups, 0, 0⟩ : HOut)
           | .ok rid => readResource st now ups rid ((Json.obj ps).get? "parameters")) := rfl
    rw [key, subscript_of_jlook_none ps "resourceId" h]
  · have key : processRequest st now ups
        (.obj [("method", .str "CallTool"), ("params", .obj ps)])
        = (match Json.subscript (.obj ps) "name" with
           | .error e => (⟨.error e, st, ups, 0, 0⟩ : HOut)
           | .ok nm =>
             match Json.subscript (.obj ps) "parameters" with
             | .error e => (⟨.error e, st, ups, 0, 0⟩ : HOut)
             | .ok prms => callTool st now ups nm prms) := rfl
    rw [key, subscript_of_jlook_none ps "name" h]
  · have key : processRequest st now ups
        (.obj [("method", .str "CallTool"), ("params", .obj ps)])
        = (match Json.subscript (.obj ps) "name" with
           | .error e => (⟨.error e, st, ups, 0, 0⟩ : HOut)
           | .ok nm =>
             match Json.subscript (.obj ps) "parameters" with
             | .error e => (⟨.error e, st, ups, 0, 0⟩ : HOut)
             | .ok prms => callTool st now ups nm prms) := rfl
    rw [key, subscript_of_jlook_some ps "name" nm hnm,
        subscript_of_jlook_none ps "parameters" h]
  · have key : processRequest st now ups
        (.obj [("method", .str "ReadPrompt"), ("params", .obj ps)])
        = (match Json.subscript (.obj ps) "promptId" with
           | .error e => (⟨.error e, st, ups, 0, 0⟩ : HOut)
           | .ok pid => readPrompt st ups pid) := rfl
    rw [key, subscript_of_jlook_none ps "promptId" h]

/-- Witness for the amended C6 at concrete requests exercising all four
missing fields. -/
theorem C6_missing_field_keyerror_witness :
    processRequest (initServer 0) 0 []
      (.obj [("method", .str "ReadResource"), ("params", .obj [])])
      = ⟨.error (.keyError "resourceId"), initServer 0, [], 0, 0⟩
  ∧ processRequest (initServer 0) 0 []
      (.obj [("method", .str "CallTool"), ("params", .obj [])])
      = ⟨.error (.keyError "name"), initServer 0, [], 0, 0⟩
  ∧ processRequest (initServer 0) 0 []
      (.obj [("method", .str "CallTool"),
             ("params", .obj [("name", .str "create_item")])])
      = ⟨.error (.keyError "parameters"), initServer 0, [], 0, 0⟩
  ∧ processRequest (initServer 0) 0 []
      (.obj [("method", .str "ReadPrompt"), ("params", .obj [])])
      = ⟨.error (.keyError "promptId"), initServer 0, [], 0, 0⟩ :=
  ⟨(C6_missing_field_keyerror (initServer 0) 0 [] []).1 rfl,
   (C6_missing_field_keyerror (initServer 0) 0 [] []).2.1 rfl,
   (C6_missing_field_keyerror (initServer 0) 0 []
     [("name", .str "create_item")]).2.2.1 (.str "create_item") rfl rfl,
   (C6_missing_field_keyerror (initServer 0) 0 [] []).2.2.2 rfl⟩

/-- C7: when the upstream body contains a structured `errors` list whose
first element carries a string message, `query_monday_api` raises a
`ValueError` carrying exactly that first message (prefixed by the fixed
"Monday.com API Error: " text), returns no data, performs exactly one POST
(no retry) and releases its permit once. -/
theorem C7_upstream_error_first_message (r : RateLimits) (ups2 : List UpOutcome)
    (fields efields : List (String × Json)) (errs : List Json) (m : String)
    (hok : acquireOk r = true)
    (he : jlook fields "errors" = some (.arr (.obj efields :: errs)))
    (hm : jlook efields "message" = some (.str m)) :
    queryMondayApi r (.body (.obj fields) :: ups2)
      = ⟨.error (.valueError ("Monday.com API Error: " ++ m)),
         releaseRateLimit (checkRateLimit r).2, ups2, 1, 1⟩ := by
  rcases hc : checkRateLimit r with ⟨res, r2⟩
  rcases res with e | b
  · exfalso
    unfold acquireOk at hok
    rw [hc] at hok
    simp at hok
  · unfold queryMondayApi
    rw [hc]
    dsimp only [takeUp]
    have hk : (Json.obj fields).hasKey "errors" = true := by
      have hred : (Json.obj fields).hasKey "errors" = (jlook fields "errors").isSome := rfl
      rw [hred, he]
      rfl
    rw [if_pos hk]
    have hdo : (do
        let es ← (Json.obj fields).subscript "errors"
        let e0 ← es.index 0
        e0.subscript "message" : Except PyError Json) = .ok (.str m) := by
      rw [subscript_of_jlook_some fields "errors" (.arr (.obj efields :: errs)) he]
      show (Json.obj efields).subscript "message" = .ok (.str m)
      exact subscript_of_jlook_some efields "message" (.str m) hm
    rw [hdo]
    rfl

/-- Witness for C7 at a concrete one-error body from the fresh state. -/
theorem C7_upstream_error_first_message_witness :
    queryMondayApi (initRate 0)
      [.body (.obj [("errors", .arr [.obj [("message", .str "Invalid board")],
                                     .obj [("message", .str "second")]]),
                    ("data", .null)])]
      = ⟨.error (.valueError ("Monday.com API Error: " ++ "Invalid board")),
         releaseRateLimit (checkRateLimit (initRate 0)).2, [], 1, 1⟩ :=
  C7_upstream_error_first_message (initRate 0) []
    [("errors", .arr [.obj [("message", .str "Invalid board")],
                      .obj [("message", .str "second")]]), ("data", .null)]
    [("message", .str "Invalid board")] [.obj [("message", .str "second")]]
    "Invalid board" (by decide) rfl rfl

/-- Extraction of the `id` fields from a catalog array. -/
def jids : Json → List Json
| .arr rs => rs.filterMap (fun r => r.get? "id")
| _ => []

/-- The resource ids advertised by the `list_resources` catalog. -/
def catalogIds : List Json :=
  jids ((listResourcesResult.get? "resources").getD .null)

/-- C8: every id advertised by `list_resources` resolves in the
`resource_handlers` dictionary of `read_resource`, so a `ReadResource` for it
invokes the resolved handler and never takes the not-found branch. -/
theorem C8_catalog_resolves (rid : Json) (h : rid ∈ catalogIds) :
    ∃ hdl : ResourceHandler, resolveResource rid = some hdl ∧
      ∀ (st : ServerState) (now : Int) (ups : List UpOutcome) (ps : Option Json),
        readResource st now ups rid ps = invokeResource hdl st now ups (noneToEmpty ps) := by
  have hids : catalogIds
      = [.str "list_boards", .str "get_board_structure", .str "list_items_by_board",
         .str "list_items_by_status", .str "list_overdue_items", .str "get_user_details",
         .str "get_user_workload"] := rfl
  rw [hids] at h
  simp only [List.mem_cons, List.not_mem_nil, or_false] at h
  rcases h with rfl | rfl | rfl | rfl | rfl | rfl | rfl
  all_goals exact ⟨_, rfl, fun _ _ _ _ => rfl⟩

/-- Witness for C8 at the first catalog id. -/
theorem C8_catalog_resolves_witness :
    resolveResource (.str "list_boards") = some ResourceHandler.list_boards
  ∧ readResource (initServer 0) 0 [] (.str "list_boards") none
      = invokeResource .list_boards (initServer 0) 0 [] (.obj []) := by
  obtain ⟨hdl, h1, h2⟩ := C8_catalog_resolves (.str "list_boards") (List.Mem.head _)
  have hval : some hdl = some ResourceHandler.list_boards := by
    rw [← h1]
    rfl
  cases Option.some.inj hval
  exact ⟨h1, h2 (initServer 0) 0 [] none⟩
